import Mathlib

/-!
Verification of the Copper-CRM ↔ MCP transformer layer.

This file is a shallow embedding of the bidirectional data-transformation
layer of the repository (src/app/mapping/transform.py, person.py, company.py,
opportunity.py, task.py, activity.py, together with the Pydantic entity
models in src/app/models/copper.py, src/app/models/mcp.py and
src/app/copper/models/opportunities.py), and proofs of the behavioural
properties claimed for it.

Modelling conventions:
* Python dicts are association lists `List (String × _)`; key lookup is
  `alookup`, first binding wins, absence of a key is `alookup _ _ = none`.
* Heterogeneous Python values are the inductive `PyVal`; Python `None` is
  `PyVal.pnone`.  Python `float` values (`monetary_value`, `win_probability`)
  are carried completely opaquely by the transformers — no arithmetic is ever
  performed on them — so they are represented by `Int` payloads, which is
  faithful for every use the code makes of them.
* `datetime` objects are represented by their UTC epoch seconds (`Nat`);
  Pydantic parses the integer timestamps of the CRM wire format into exactly
  such values, and `strftime` on them is `formatTimestamp`.
* Python `str(n)` on a nonnegative int is `natRepr`, `int(s)` on a string is
  `parseNat` (Python additionally strips whitespace and accepts signs, which
  no string produced or consumed by this code contains).
* Fallible Python code (AttributeError, TypeError, ValueError,
  Pydantic ValidationError) is modelled with `Except String`.
-/

set_option maxHeartbeats 1000000

namespace CopperMCP

/-- Python dict lookup on an association list: first binding wins, `none`
means the key is absent. -/
def alookup {α : Type} (k : String) : List (String × α) → Option α
  | [] => none
  | (q, v) :: rest => if q = k then some v else alookup k rest

theorem alookup_nil {α : Type} (k : String) : alookup (α := α) k [] = none := rfl

theorem alookup_cons {α : Type} (k q : String) (v : α) (l : List (String × α)) :
    alookup k ((q, v) :: l) = if q = k then some v else alookup k l := rfl

theorem alookup_append_left {α : Type} {k : String} {l₁ : List (String × α)} {v : α}
    (h : alookup k l₁ = some v) (l₂ : List (String × α)) :
    alookup k (l₁ ++ l₂) = some v := by
  induction l₁ with
  | nil => simp [alookup] at h
  | cons p rest ih =>
    obtain ⟨q, w⟩ := p
    rw [List.cons_append, alookup_cons]
    rw [alookup_cons] at h
    split at h
    · simp_all
    · simp_all [ih h]

theorem alookup_append_right {α : Type} {k : String} {l₁ : List (String × α)}
    (h : alookup k l₁ = none) (l₂ : List (String × α)) :
    alookup k (l₁ ++ l₂) = alookup k l₂ := by
  induction l₁ with
  | nil => simp
  | cons p rest ih =>
    obtain ⟨q, w⟩ := p
    rw [List.cons_append, alookup_cons]
    rw [alookup_cons] at h
    split at h
    · exact absurd h (by simp)
    · simp_all [ih h]

/-! ### Decimal rendering and parsing

Python's `str` on a nonnegative `int` and `int` on a decimal string.
The digit extraction is fuel-based so that everything reduces inside the
kernel (fuel `n + 1` always suffices since the digit count of `n` is at
most `n + 1`). -/

/-- Little-endian base-10 digits of `n` (fuel-based). -/
def digitsRevAux : Nat → Nat → List Nat
  | 0, _ => []
  | fuel + 1, n => if n < 10 then [n] else n % 10 :: digitsRevAux fuel (n / 10)

/-- Little-endian base-10 digits of `n`. -/
def digitsRev (n : Nat) : List Nat := digitsRevAux (n + 1) n

/-- The ASCII digit character for a digit value. -/
def digitChar (d : Nat) : Char := Char.ofNat (48 + d)

/-- Python `str(n)` for a nonnegative integer `n`: its decimal digit string. -/
def natRepr (n : Nat) : String := ⟨((digitsRev n).map digitChar).reverse⟩

/-- Python `str(x)` for an `Optional[int]` value: `None` prints as the
literal four-character string `None`. -/
def pyStr (x : Option Nat) : String :=
  match x with
  | none => "None"
  | some n => natRepr n

/-- Python `int(s)` on a string: succeeds exactly on nonempty all-digit
strings (the only shape this code ever feeds it), `ValueError` (= `none`)
otherwise. -/
def parseNat (s : String) : Option Nat :=
  match s.data with
  | [] => none
  | cs =>
    if cs.all (fun c => c.isDigit) then
      some (cs.foldl (fun a c => 10 * a + (c.toNat - 48)) 0)
    else none

theorem digitsRevAux_ne_nil {fuel n : Nat} (h : n < fuel) : digitsRevAux fuel n ≠ [] := by
  cases fuel with
  | zero => omega
  | succ f =>
    rw [digitsRevAux]
    split <;> simp

theorem digitsRevAux_lt {fuel n : Nat} (h : n < fuel) :
    ∀ d ∈ digitsRevAux fuel n, d < 10 := by
  induction fuel generalizing n with
  | zero => omega
  | succ f ih =>
    rw [digitsRevAux]
    split
    · intro d hd
      simp at hd
      omega
    · intro d hd
      rcases List.mem_cons.mp hd with h1 | h2
      · omega
      · exact ih (by omega) d h2

theorem digitsRevAux_foldr {fuel n : Nat} (h : n < fuel) :
    (digitsRevAux fuel n).foldr (fun d a => 10 * a + d) 0 = n := by
  induction fuel generalizing n with
  | zero => omega
  | succ f ih =>
    rw [digitsRevAux]
    split
    · simp
    · have hn : 10 ≤ n := by omega
      have hdiv : n / 10 < f := by
        have h1 : n / 10 < n := Nat.div_lt_self (by omega) (by omega)
        omega
      simp only [List.foldr_cons, ih hdiv]
      omega

theorem digitChar_toNat {d : Nat} (h : d < 10) : (digitChar d).toNat = 48 + d := by
  interval_cases d <;> rfl

theorem digitChar_isDigit {d : Nat} (h : d < 10) : (digitChar d).isDigit = true := by
  interval_cases d <;> rfl

/-- Rendering a nonnegative integer and parsing the result with `int`
gives back the integer. -/
theorem parseNat_natRepr (n : Nat) : parseNat (natRepr n) = some n := by
  have hlt : n < n + 1 := Nat.lt_succ_self n
  have hne : digitsRev n ≠ [] := digitsRevAux_ne_nil hlt
  have hdig : ∀ d ∈ digitsRev n, d < 10 := digitsRevAux_lt hlt
  have hfold : (digitsRev n).foldr (fun d a => 10 * a + d) 0 = n := digitsRevAux_foldr hlt
  unfold parseNat natRepr
  have hdata : (String.mk (((digitsRev n).map digitChar).reverse)).data
      = ((digitsRev n).map digitChar).reverse := rfl
  rw [hdata]
  have hnil : ((digitsRev n).map digitChar).reverse ≠ [] := by
    simpa using hne
  cases hrv : ((digitsRev n).map digitChar).reverse with
  | nil => exact absurd hrv hnil
  | cons c cs =>
    have hall : ((c :: cs).all fun c => c.isDigit) = true := by
      rw [← hrv, List.all_eq_true]
      intro x hx
      rw [List.mem_reverse, List.mem_map] at hx
      obtain ⟨d, hd, rfl⟩ := hx
      exact digitChar_isDigit (hdig d hd)
    have hval : (c :: cs).foldl (fun a c => 10 * a + (c.toNat - 48)) 0 = n := by
      rw [← hrv, List.foldl_reverse, List.foldr_map]
      have hext : List.foldr (fun x y => 10 * y + ((digitChar x).toNat - 48)) 0 (digitsRev n)
          = List.foldr (fun d a => 10 * a + d) 0 (digitsRev n) := by
        apply List.foldr_ext
        intro d hd a
        rw [digitChar_toNat (hdig d hd)]
        omega
      rw [hext, hfold]
    simp [hall, hval]

/-! ### UTC timestamp formatting

`datetime.fromtimestamp(t, timezone.utc).strftime("%Y-%m-%dT%H:%M:%SZ")`
for a nonnegative epoch value `t`, via the standard civil-from-days
calendar algorithm. -/

/-- Convert a count of days since 1970-01-01 into a `(year, month, day)`
Gregorian civil date. -/
def daysToCivil (z : Nat) : Nat × Nat × Nat :=
  let w := z + 719468
  let era := w / 146097
  let doe := w % 146097
  let yoe := (doe - doe / 1460 + doe / 36524 - doe / 146096) / 365
  let y := yoe + era * 400
  let doy := doe - (365 * yoe + yoe / 4 - yoe / 100)
  let mp := (5 * doy + 2) / 153
  let d := doy - (153 * mp + 2) / 5 + 1
  let m := if mp < 10 then mp + 3 else mp - 9
  (if m ≤ 2 then y + 1 else y, m, d)

/-- Zero-padded two-digit rendering used by `strftime` for `%m %d %H %M %S`. -/
def pad2 (n : Nat) : String := if n < 10 then "0" ++ natRepr n else natRepr n

/-- The `strftime("%Y-%m-%dT%H:%M:%SZ")` rendering of the UTC datetime at
epoch second `t`. -/
def formatTimestamp (t : Nat) : String :=
  let secs := t % 86400
  let c := daysToCivil (t / 86400)
  natRepr c.1 ++ "-" ++ pad2 c.2.1 ++ "-" ++ pad2 c.2.2 ++ "T" ++
    pad2 (secs / 3600) ++ ":" ++ pad2 (secs % 3600 / 60) ++ ":" ++ pad2 (secs % 60) ++ "Z"

/-- An argument to one of the `_format_datetime` helpers: either a raw Python
`int` timestamp or an (already parsed, UTC) `datetime` object. -/
inductive TsInput where
  | int (t : Nat)
  | dt (t : Nat)
deriving DecidableEq

/-- Embeds `_format_datetime` of src/app/mapping/activity.py (lines 200-216):
the guard is `if not timestamp`, so `None` and the integer `0` both yield
`None` (a `datetime` object is always truthy). -/
def formatDatetimeActivity : Option TsInput → Option String
  | none => none
  | some (.int 0) => none
  | some (.int t) => some (formatTimestamp t)
  | some (.dt t) => some (formatTimestamp t)

/-- Embeds `_format_datetime` of src/app/mapping/company.py (lines 179-194):
the guard is `if dt is None`, so the integer `0` is formatted like any other
timestamp. -/
def formatDatetimeCompany : Option TsInput → Option String
  | none => none
  | some (.int t) => some (formatTimestamp t)
  | some (.dt t) => some (formatTimestamp t)

/-- Embeds `_format_datetime` of src/app/mapping/transform.py (lines 69-73):
it only ever receives `Optional[datetime]` values. -/
def formatDatetimeBase : Option Nat → Option String
  | none => none
  | some t => some (formatTimestamp t)

/-! ### Python values and the MCP envelope -/

/-- Heterogeneous Python values as they appear in attribute / payload dicts. -/
inductive PyVal where
  | pnone
  | pstr (s : String)
  | pint (n : Int)
  | pdt (t : Nat)
  | plist (l : List PyVal)
  | pdict (l : List (String × PyVal))

open PyVal

/-- A Python `Optional[str]` as a dict value. -/
def optStr : Option String → PyVal
  | none => pnone
  | some s => pstr s

/-- A Python `Optional[int]` (or opaquely carried `Optional[float]`) as a
dict value. -/
def optInt : Option Int → PyVal
  | none => pnone
  | some n => pint n

/-- A Python `Optional[datetime]` as a dict value (carried raw, unformatted). -/
def optDt : Option Nat → PyVal
  | none => pnone
  | some t => pdt t

/-- The `{"type": ..., "id": ...}` payload of a populated MCP relationship;
`name` is present only when the relationship builder added it
(src/app/models/mcp.py MCPRelationshipData). -/
structure RelData where
  type : String
  id : String
  name : Option String := none
deriving DecidableEq

/-- The normalized MCP envelope built by the `_to_mcp_format` methods and
completed by `BaseTransformer.to_mcp`.  `id`, `source` and `source_id` use an
outer `Option` for "key not set (yet)"; a relationship value `none` is the
JSON `{"data": null}` object. -/
structure Envelope where
  type : String
  id : Option (Option String) := none
  source : Option String := none
  source_id : Option String := none
  attributes : List (String × PyVal)
  relationships : List (String × Option RelData)
  meta : List (String × PyVal)

/-- Dict-shaped contact record consumed by the base-class
`_get_primary_contact` (src/app/mapping/transform.py lines 75-86):
`contact.get("category")` may be absent, `contact["value"]` is required. -/
structure ContactDict where
  category : Option String
  value : String
deriving DecidableEq

/-- Email/phone contact record (src/app/models/copper.py EmailPhone). -/
structure EmailPhone where
  category : String
  email : Option String := none
  phone : Option String := none
deriving DecidableEq

/-- Social profile record (src/app/models/copper.py Social; the HttpUrl is
carried as an opaque string). -/
structure Social where
  category : String
  url : String
deriving DecidableEq

/-- Postal address record (src/app/models/copper.py Address). -/
structure Address where
  street : Option String := none
  city : Option String := none
  state : Option String := none
  postal_code : Option String := none
  country : Option String := none
deriving DecidableEq

/-- Custom field entry (src/app/models/copper.py CustomField); the value is
an arbitrary Python object carried opaquely. -/
structure CustomField where
  custom_field_definition_id : Nat
  value : PyVal

/-- Embeds the base-class `_get_primary_contact` of
src/app/mapping/transform.py (lines 75-86): return `None` for an empty
list, else the value of the first entry whose `category` equals the exact
string `"work"`, else the value of the first entry. -/
def getPrimaryContact : List ContactDict → Option String
  | [] => none
  | c :: cs =>
    match (c :: cs).find? (fun x => decide (x.category = some "work")) with
    | some w => some w.value
    | none => some c.value

/-- Embeds `_get_primary_contact` of src/app/mapping/person.py
(lines 136-155) and the identical copy in src/app/mapping/company.py
(lines 158-177): filter on `c.category == preferred_category`, return the
first match, else the first contact, else `None`. -/
def getPrimaryContactPerson (contacts : List EmailPhone) (preferred : String) :
    Option EmailPhone :=
  match contacts with
  | [] => none
  | c :: _ =>
    match contacts.filter (fun x => decide (x.category = preferred)) with
    | w :: _ => some w
    | [] => some c

/-- Lowercasing a string character by character (Python `str.lower` for the
ASCII category tags this code compares). -/
def lowerStr (s : String) : String := ⟨s.data.map Char.toLower⟩

/-- The primary-contact selector as the specification describes it: the
comparison of `category` against `"work"` is case-insensitive.  This
definition follows the spec's words (spec §4.1) and exists only to be
compared against the code's `getPrimaryContact`. -/
def specPrimaryContact : List ContactDict → Option String
  | [] => none
  | c :: cs =>
    match (c :: cs).find? (fun x => decide (x.category.map lowerStr = some "work")) with
    | some w => some w.value
    | none => some c.value

/-- Embeds `_create_relationship` of src/app/mapping/transform.py
(lines 88-106): `None` id gives `{"data": None}`; a present id is rendered
with `str`, and `name` is attached only when truthy (Python `if name:`, so
the empty string is not attached). -/
def createRelationship (relType : String) (relId : Option Nat)
    (name : Option String) : Option RelData :=
  match relId with
  | none => none
  | some i =>
    some { type := relType, id := natRepr i,
           name := match name with
                   | some s => if s = "" then none else some s
                   | none => none }

/-- One conditional relationship entry of a `_to_mcp_format` body:
`if data.foo_id:` followed by an inline `{"data": {"type": ..., "id":
str(data.foo_id)}}` assignment.  Python truthiness makes both `None` and
`0` skip the key entirely. -/
def relEntry (key ty : String) (fk : Option Nat) : List (String × Option RelData) :=
  match fk with
  | some n => if n = 0 then [] else [(key, some { type := ty, id := natRepr n })]
  | none => []

theorem alookup_relEntry (k key ty : String) (fk : Option Nat) :
    alookup k (relEntry key ty fk) =
      if key = k then
        match fk with
        | some n => if n = 0 then none else some (some { type := ty, id := natRepr n })
        | none => none
      else none := by
  match fk with
  | none => simp [relEntry, alookup]
  | some 0 => simp [relEntry, alookup]
  | some (n + 1) => simp [relEntry, alookup]

theorem alookup_relEntry_ne {k key : String} (h : key ≠ k) (ty : String)
    (fk : Option Nat) : alookup k (relEntry key ty fk) = none := by
  rw [alookup_relEntry]
  simp [h]

/-- The string-keyed variant of `relEntry` used by the Activity transformer,
whose `assignee_id` is already a string: the id is attached as is, and
Python truthiness makes `None` and the empty string skip the key. -/
def relEntryStr (key ty : String) (fk : Option String) : List (String × Option RelData) :=
  match fk with
  | some s => if s = "" then [] else [(key, some { type := ty, id := s })]
  | none => []

/-! ### Entity records (the validated Pydantic models of
src/app/models/copper.py) -/

/-- Person entity (src/app/models/copper.py lines 52-76).  Only `name` is a
required field; every list field defaults to the empty list.  The Python
field `prefix` is spelled `prefix_` because `prefix` is reserved in Lean. -/
structure Person where
  id : Option Nat := none
  name : String
  prefix_ : Option String := none
  first_name : Option String := none
  last_name : Option String := none
  suffix : Option String := none
  title : Option String := none
  company_name : Option String := none
  company_id : Option Nat := none
  emails : List EmailPhone := []
  phone_numbers : List EmailPhone := []
  socials : List Social := []
  websites : List String := []
  address : Option Address := none
  assignee_id : Option Nat := none
  contact_type_id : Option Nat := none
  details : Option String := none
  tags : List String := []
  custom_fields : List CustomField := []
  date_created : Option Nat := none
  date_modified : Option Nat := none
  interaction_count : Option Nat := none

/-- Company entity (src/app/models/copper.py lines 78-98). -/
structure Company where
  id : Option Nat := none
  name : String
  assignee_id : Option Nat := none
  address : Option Address := none
  phone_numbers : List EmailPhone := []
  socials : List Social := []
  websites : List String := []
  email_domain : Option String := none
  details : Option String := none
  tags : List String := []
  custom_fields : List CustomField := []
  industry : Option String := none
  annual_revenue : Option Int := none
  employee_count : Option Int := none
  date_created : Option Nat := none
  date_modified : Option Nat := none
  interaction_count : Option Int := none
  primary_contact_id : Option Nat := none
  status : Option String := none

/-- Opportunity entity (src/app/models/copper.py lines 101-121).  `name` and
`status` are the only required fields; `monetary_value` carries no range
constraint at all, while `win_probability` is constrained to 0..100. -/
structure Opportunity where
  id : Option Nat := none
  name : String
  assignee_id : Option Nat := none
  company_id : Option Nat := none
  company_name : Option String := none
  primary_contact_id : Option Nat := none
  status : String
  priority : Option String := none
  pipeline_id : Option Nat := none
  pipeline_stage_id : Option Nat := none
  monetary_value : Option Int := none
  win_probability : Option Int := none
  close_date : Option Nat := none
  details : Option String := none
  tags : List String := []
  custom_fields : List CustomField := []
  date_created : Option Nat := none
  date_modified : Option Nat := none
  interaction_count : Option Int := none

/-- Task entity (src/app/models/copper.py lines 160-177).  `related_resource`
and the custom-field entries are plain dicts in the source model. -/
structure Task where
  id : Option Nat := none
  name : String
  related_resource : Option (List (String × PyVal)) := none
  assignee_id : Option Nat := none
  due_date : Option Int := none
  reminder_date : Option Int := none
  completed_date : Option Int := none
  priority : Option String := none
  status : Option String := none
  details : Option String := none
  tags : Option (List String) := none
  custom_fields : Option (List (List (String × PyVal))) := none
  date_created : Option Int := none
  date_modified : Option Int := none

/-- Activity type record (src/app/models/copper.py lines 45-49); note that
its `id` is a string in this model. -/
structure ActivityType where
  id : String
  category : String
  name : String
deriving DecidableEq

/-- Activity entity (src/app/models/copper.py lines 124-135).  `parent` is a
`Dict[str, str]`, i.e. a plain dict with string keys and values. -/
structure Activity where
  id : Option String := none
  type : ActivityType
  details : Option String := none
  activity_date : Int
  user_id : String
  parent : List (String × String)
  assignee_id : Option String := none
  custom_fields : List CustomField := []
  created_at : Option Int := none
  updated_at : Option Int := none

/-! ### Forward transformers (CRM-native → MCP envelope) -/

/-- Splitting a character list at spaces, keeping empty chunks. -/
def splitAtSpaces : List Char → List Char → List (List Char)
  | [], acc => [acc.reverse]
  | c :: rest, acc =>
    if c = ' ' then acc.reverse :: splitAtSpaces rest []
    else splitAtSpaces rest (c :: acc)

/-- Python `str.split()` restricted to the space separator (the only
whitespace occurring in this data): split on runs of spaces and drop the
empty tokens, so an all-whitespace string yields the empty list. -/
def pySplit (s : String) : List String :=
  ((splitAtSpaces s.data []).filter (fun t => decide (t ≠ []))).map (fun l => ⟨l⟩)

/-- Python `" ".join(tokens)`. -/
def joinSpace : List String → String
  | [] => ""
  | [x] => x
  | x :: rest => x ++ " " ++ joinSpace rest

/-- The `data.name.split()[0]` expression: an `IndexError` when the name
consists only of whitespace. -/
def firstToken (nm : String) : Except String (Option String) :=
  match pySplit nm with
  | [] => .error "IndexError: list index out of range"
  | t :: _ => .ok (some t)

/-- The `first_name` attribute of the Person forward transformer
(src/app/mapping/person.py line 33): the conditional expression binds
tighter than it looks, giving
`(data.first_name or data.name.split()[0]) if data.name else None`;
Python `or` short-circuits, so the split is evaluated only when
`first_name` is falsy. -/
def personFirstName (p : Person) : Except String (Option String) :=
  if p.name = "" then .ok none
  else
    match p.first_name with
    | some s => if s = "" then firstToken p.name else .ok (some s)
    | none => firstToken p.name

/-- The `last_name` attribute of the Person forward transformer
(src/app/mapping/person.py line 34):
`(data.last_name or " ".join(data.name.split()[1:]))
 if data.name and len(data.name.split()) > 1 else None`. -/
def personLastName (p : Person) : Option String :=
  if p.name = "" then none
  else if (pySplit p.name).length > 1 then
    match p.last_name with
    | some s =>
      if s = "" then some (joinSpace ((pySplit p.name).drop 1)) else some s
    | none => some (joinSpace ((pySplit p.name).drop 1))
  else none

/-- `social.model_dump()` for a Social record. -/
def socialDump (s : Social) : PyVal := pdict [("category", pstr s.category), ("url", pstr s.url)]

/-- The inline address dict of the forward transformers: `None` when the
record has no address, else the five-key dict. -/
def addressDump : Option Address → PyVal
  | none => pnone
  | some a => pdict [("street", optStr a.street), ("city", optStr a.city),
      ("state", optStr a.state), ("postal_code", optStr a.postal_code),
      ("country", optStr a.country)]

/-- The list-of-dicts rendering of custom fields used by the company,
opportunity, task and activity forward transformers:
`[{"id": str(field.custom_field_definition_id), "value": field.value}, ...]`. -/
def cfDumpList (fs : List CustomField) : PyVal :=
  plist (fs.map (fun f =>
    pdict [("id", pstr (natRepr f.custom_field_definition_id)), ("value", f.value)]))

/-- The dict-keyed-by-id rendering of custom fields used by the person
forward transformer: `{str(field.custom_field_definition_id): field.value}`. -/
def cfDumpDict (fs : List CustomField) : PyVal :=
  pdict (fs.map (fun f => (natRepr f.custom_field_definition_id, f.value)))

/-- Embeds `_to_mcp_format` of src/app/mapping/person.py (lines 17-91).
The only failure path is the best-effort name split (`IndexError` on an
all-whitespace name). -/
def person_toMcpFormat (p : Person) : Except String Envelope := do
  let fn ← personFirstName p
  .ok {
    type := "person",
    id := some (match p.id with
      | some n => if n = 0 then none else some (natRepr n)
      | none => none),
    attributes := [
      ("name", pstr p.name),
      ("prefix", optStr p.prefix_),
      ("first_name", optStr fn),
      ("last_name", optStr (personLastName p)),
      ("suffix", optStr p.suffix),
      ("title", optStr p.title),
      ("company_name", optStr p.company_name),
      ("email", optStr ((if p.emails = [] then none
        else getPrimaryContactPerson p.emails "work").bind (fun e => e.email))),
      ("phone", optStr ((if p.phone_numbers = [] then none
        else getPrimaryContactPerson p.phone_numbers "work").bind (fun e => e.phone))),
      ("socials", plist (p.socials.map socialDump)),
      ("websites", plist (p.websites.map pstr)),
      ("address", addressDump p.address),
      ("details", optStr p.details),
      ("tags", plist (p.tags.map pstr))],
    relationships := relEntry "company" "company" p.company_id ++
      relEntry "assignee" "user" p.assignee_id,
    meta := [("custom_fields", cfDumpDict p.custom_fields)] }

/-- Embeds `BaseTransformer.to_mcp` (src/app/mapping/transform.py lines
24-59) instantiated at the Person transformer: run `_to_mcp_format`, add
`created_at`/`updated_at` to the attributes, and set `source` and
`source_id`, the latter as the unconditional `str(validated_data.id)`.
The final Pydantic re-validation step can only reject an envelope or drop
unknown / `None`-valued attribute keys, neither of which changes any value
asserted below, so it is not re-modelled. -/
def person_to_mcp (p : Person) : Except String Envelope :=
  (person_toMcpFormat p).map (fun e =>
    { e with
      attributes := e.attributes ++
        [("created_at", optStr (formatDatetimeBase p.date_created)),
         ("updated_at", optStr (formatDatetimeBase p.date_modified))],
      source := some "copper",
      source_id := some (pyStr p.id) })

/-- Embeds `_to_mcp_format` of src/app/mapping/company.py (lines 18-97). -/
def company_toMcpFormat (c : Company) : Envelope :=
  { type := "company",
    attributes := [
      ("name", pstr c.name),
      ("email_domain", optStr c.email_domain),
      ("details", optStr c.details),
      ("industry", optStr c.industry),
      ("annual_revenue", optInt c.annual_revenue),
      ("employee_count", optInt c.employee_count),
      ("status", optStr c.status),
      ("phone", optStr ((if c.phone_numbers = [] then none
        else getPrimaryContactPerson c.phone_numbers "work").bind (fun e => e.phone))),
      ("website", optStr c.websites.head?),
      ("phone_numbers", plist (c.phone_numbers.map (fun ph =>
        pdict [("number", optStr ph.phone), ("category", pstr ph.category)]))),
      ("socials", plist (c.socials.map (fun s =>
        pdict [("url", pstr s.url), ("category", pstr s.category)]))),
      ("websites", plist (c.websites.map pstr)),
      ("address", addressDump c.address),
      ("tags", plist (c.tags.map pstr))],
    relationships := relEntry "assignee" "user" c.assignee_id ++
      relEntry "primary_contact" "person" c.primary_contact_id,
    meta := [
      ("custom_fields", cfDumpList c.custom_fields),
      ("interaction_count", pint (c.interaction_count.getD 0)),
      ("created_at", optStr (formatDatetimeCompany (c.date_created.map TsInput.dt))),
      ("updated_at", optStr (formatDatetimeCompany (c.date_modified.map TsInput.dt)))] }

/-- Embeds `_to_mcp_format` of src/app/mapping/opportunity.py (lines 17-74).
Note that `pipeline_id` / `pipeline_stage_id` go through `str()`
unconditionally, so an absent pipeline id becomes the literal string
`"None"`. -/
def opp_toMcpFormat (o : Opportunity) : Envelope :=
  { type := "opportunity",
    attributes := [
      ("name", pstr o.name),
      ("status", pstr o.status),
      ("pipeline_id", pstr (pyStr o.pipeline_id)),
      ("pipeline_stage_id", pstr (pyStr o.pipeline_stage_id)),
      ("details", optStr o.details),
      ("monetary_value", optInt o.monetary_value),
      ("win_probability", optInt o.win_probability),
      ("close_date", optDt o.close_date)],
    relationships := relEntry "company" "company" o.company_id ++
      relEntry "primary_contact" "person" o.primary_contact_id ++
      relEntry "assignee" "user" o.assignee_id,
    meta := [("custom_fields", cfDumpList o.custom_fields)] }

/-- The `meta` check of the final `mcp_model.model_validate` step of
`BaseTransformer.to_mcp` (src/app/mapping/transform.py line 58):
`MCPMeta.custom_fields` (src/app/models/mcp.py lines 42-47) is declared
`Dict[str, Any]` with a dict default, so Pydantic accepts the meta mapping
only when its `custom_fields` entry is absent or a dict — a list is a
ValidationError.  The model's further field checks (for instance that
`close_date` must already be a string) are not modelled: this single check
is already decided on every envelope the claims below evaluate. -/
def mcpMetaCustomFieldsOk (e : Envelope) : Bool :=
  match alookup "custom_fields" e.meta with
  | none => true
  | some (pdict _) => true
  | some _ => false

/-- Embeds `BaseTransformer.to_mcp` instantiated at the Opportunity
transformer, including the final `MCPOpportunity.model_validate` step.
The opportunity `_to_mcp_format` body always writes `meta["custom_fields"]`
as a list, while `MCPMeta.custom_fields` is declared `Dict[str, Any]`, so
that re-validation raises for every input and the opportunity wrapper never
returns an envelope. -/
def opp_to_mcp (o : Opportunity) : Except String Envelope :=
  let e := opp_toMcpFormat o
  let e' := { e with
    attributes := e.attributes ++
      [("created_at", optStr (formatDatetimeBase o.date_created)),
       ("updated_at", optStr (formatDatetimeBase o.date_modified))],
    source := some "copper",
    source_id := some (pyStr o.id) }
  if mcpMetaCustomFieldsOk e' then .ok e'
  else .error "ValidationError: meta.custom_fields must be a dict"

/-- Embeds `_to_mcp_format` of src/app/mapping/task.py (lines 18-66).
`related_resource` and the custom-field entries are plain dicts in the Task
model, but the code reads them with attribute access
(`data.related_resource.type`, `field.custom_field_definition_id`), which
raises `AttributeError` whenever either is a nonempty value. -/
def task_toMcpFormat (t : Task) : Except String Envelope :=
  match t.related_resource with
  | some (_ :: _) => .error "AttributeError: dict object has no attribute type"
  | _ =>
    match t.custom_fields with
    | some (_ :: _) =>
      .error "AttributeError: dict object has no attribute custom_field_definition_id"
    | _ =>
      .ok {
        type := "task",
        id := some (some (match t.id with
          | some n => if n = 0 then "0" else natRepr n
          | none => "0")),
        attributes := [
          ("name", pstr t.name),
          ("details", optStr t.details),
          ("status", optStr t.status),
          ("priority", optStr t.priority),
          ("due_date", optInt t.due_date),
          ("reminder_date", optInt t.reminder_date),
          ("completed_date", optInt t.completed_date)],
        relationships := relEntry "assignee" "user" t.assignee_id,
        meta := [("custom_fields", plist [])] }

/-- Embeds `_to_mcp_format` of src/app/mapping/activity.py (lines 104-147).
`parent` is a plain dict (`Dict[str, str]`), but line 123 reads
`data.parent.type` with attribute access, so a truthy (nonempty) parent
always raises `AttributeError`; `activity_date` is passed through as the
raw integer, never through `_format_datetime`. -/
def activity_toMcpFormat (a : Activity) : Except String Envelope :=
  match a.parent with
  | _ :: _ => .error "AttributeError: dict object has no attribute type"
  | [] =>
    .ok {
      type := "activity",
      attributes := [
        ("details", optStr a.details),
        ("activity_type", pstr a.type.category),
        ("activity_date", pint a.activity_date)],
      relationships := relEntryStr "assignee" "user" a.assignee_id,
      meta := [("custom_fields", cfDumpList a.custom_fields)] }

/-! ### Reverse transformers (MCP envelope → CRM-native payload)

The `_to_copper_format` methods read the envelope structurally
(`data.attributes.get(...)`, `"key" in data.relationships`), and their
output is a plain Python dict, modelled as an association list so that the
difference between an absent key and a key bound to `None` is preserved. -/

/-- `data.attributes.get(k)`: `None` when the key is absent. -/
def attrGet (e : Envelope) (k : String) : PyVal := (alookup k e.attributes).getD pnone

/-- Python `int(x)` on a dict value. -/
def pyInt : PyVal → Except String Int
  | pint n => .ok n
  | pstr s =>
    match parseNat s with
    | some n => .ok (Int.ofNat n)
    | none => .error ("ValueError: invalid literal for int: " ++ s)
  | pnone => .error "TypeError: int argument must not be NoneType"
  | _ => .error "TypeError: int argument has wrong type"

/-- Effectful map over a list, short-circuiting on the first error (the
behaviour of a Python list comprehension whose body can raise). -/
def mapE {α β : Type} (f : α → Except String β) : List α → Except String (List β)
  | [] => .ok []
  | a :: l => do
    let b ← f a
    let bs ← mapE f l
    .ok (b :: bs)

/-- One step of the custom-fields reverse comprehension:
`{"custom_field_definition_id": int(field["id"]), "value": field["value"]}`. -/
def cfEntryBack : PyVal → Except String PyVal
  | pdict d => do
    let idv ← match alookup "id" d with
      | some v => Except.ok v
      | none => Except.error "KeyError: id"
    let n ← pyInt idv
    let w ← match alookup "value" d with
      | some v => Except.ok v
      | none => Except.error "KeyError: value"
    Except.ok (pdict [("custom_field_definition_id", pint n), ("value", w)])
  | _ => .error "TypeError: custom field entry is not a dict"

/-- The custom-fields reverse comprehension applied to the stored
`meta["custom_fields"]` value.  Iterating a Python dict yields its keys
(strings), so the dict-shaped rendering produced by the person forward
transformer raises `TypeError` as soon as it is nonempty. -/
def customFieldsBack : PyVal → Except String PyVal
  | plist fs => (mapE cfEntryBack fs).map plist
  | pdict [] => .ok (plist [])
  | pdict (_ :: _) => .error "TypeError: string indices must be integers"
  | _ => .error "TypeError: custom fields value is not iterable"

/-- The guarded custom-fields block of every `_to_copper_format`:
`if data.meta and "custom_fields" in data.meta` (an empty meta dict is
falsy), then the comprehension. -/
def metaCfBack (e : Envelope) : Except String (List (String × PyVal)) :=
  if e.meta.isEmpty then .ok []
  else
    match alookup "custom_fields" e.meta with
    | some v => (customFieldsBack v).map (fun w => [("custom_fields", w)])
    | none => .ok []

/-- One guarded relationship block of a `_to_copper_format`:
`if relKey in data.relationships:` followed by
`result[outKey] = int(data.relationships[relKey]["data"]["id"])`.
Subscripting a `null` data object raises `TypeError`. -/
def relBack (e : Envelope) (relKey outKey : String) : Except String (List (String × PyVal)) :=
  match alookup relKey e.relationships with
  | none => .ok []
  | some none => .error "TypeError: NoneType is not subscriptable"
  | some (some rd) =>
    match parseNat rd.id with
    | some n => .ok [(outKey, pint (Int.ofNat n))]
    | none => .error ("ValueError: invalid literal for int: " ++ rd.id)

/-- Embeds `_to_copper_format` of src/app/mapping/opportunity.py
(lines 76-111).  `int(data.attributes.get("pipeline_id"))` raises whenever
the attribute is absent, `None`, or the `"None"` string produced by the
forward transformer for an absent pipeline id. -/
def opp_toCopperFormat (e : Envelope) : Except String (List (String × PyVal)) := do
  let pid ← pyInt (attrGet e "pipeline_id")
  let psid ← pyInt (attrGet e "pipeline_stage_id")
  let rc ← relBack e "company" "company_id"
  let rp ← relBack e "primary_contact" "primary_contact_id"
  let ra ← relBack e "assignee" "assignee_id"
  let cf ← metaCfBack e
  .ok ([
    ("name", attrGet e "name"),
    ("status", attrGet e "status"),
    ("pipeline_id", pint pid),
    ("pipeline_stage_id", pint psid),
    ("details", attrGet e "details"),
    ("monetary_value", attrGet e "monetary_value"),
    ("win_probability", attrGet e "win_probability"),
    ("close_date", attrGet e "close_date")] ++ rc ++ rp ++ ra ++ cf)

/-- The list-of-dicts re-keying comprehensions of the person reverse
transformer (`phone["number"]`, `social["url"]`, ...): every element must
be a dict containing the requested keys. -/
def pickKeys (ks : List String) : PyVal → Except String PyVal
  | plist xs =>
    (mapE (fun x =>
      match x with
      | pdict d =>
        (mapE (fun k =>
          match alookup k d with
          | some w => Except.ok (k, w)
          | none => Except.error ("KeyError: " ++ k)) ks).map pdict
      | _ => Except.error "TypeError: entry is not a dict") xs).map plist
  | pdict [] => .ok (plist [])
  | pdict (_ :: _) => .error "TypeError: string indices must be integers"
  | _ => .error "TypeError: value is not iterable"

/-- Embeds `_to_copper_format` of src/app/mapping/person.py (lines 93-134). -/
def person_toCopperFormat (e : Envelope) : Except String (List (String × PyVal)) := do
  let phones ← pickKeys ["number", "category"]
    ((alookup "phone_numbers" e.attributes).getD (plist []))
  let socials ← pickKeys ["url", "category"]
    ((alookup "socials" e.attributes).getD (plist []))
  let rc ← relBack e "company" "company_id"
  let ra ← relBack e "assignee" "assignee_id"
  let cf ← metaCfBack e
  .ok ([
    ("name", attrGet e "name"),
    ("email", attrGet e "email"),
    ("details", attrGet e "details"),
    ("phone_numbers", phones),
    ("socials", socials),
    ("websites", (alookup "websites" e.attributes).getD (plist []))] ++ rc ++ ra ++ cf)

/-- The `related_resource` block of the task reverse transformer
(src/app/mapping/task.py lines 80-86): reconstruct `{type, id:int}` when
the relationship key is present. -/
def relatedResourceBack (e : Envelope) : Except String (List (String × PyVal)) :=
  match alookup "related_resource" e.relationships with
  | none => Except.ok ([] : List (String × PyVal))
  | some none => Except.error "TypeError: NoneType is not subscriptable"
  | some (some rd) =>
    match parseNat rd.id with
    | some n =>
      Except.ok [("related_resource",
        pdict [("type", pstr rd.type), ("id", pint (Int.ofNat n))])]
    | none => Except.error ("ValueError: invalid literal for int: " ++ rd.id)

/-- Embeds `_to_copper_format` of src/app/mapping/task.py (lines 68-102). -/
def task_toCopperFormat (e : Envelope) : Except String (List (String × PyVal)) := do
  let rr ← relatedResourceBack e
  let ra ← relBack e "assignee" "assignee_id"
  let cf ← metaCfBack e
  .ok ([
    ("name", attrGet e "name"),
    ("details", attrGet e "details"),
    ("status", attrGet e "status"),
    ("priority", attrGet e "priority"),
    ("due_date", attrGet e "due_date"),
    ("reminder_date", attrGet e "reminder_date"),
    ("completed_date", attrGet e "completed_date")] ++ rr ++ ra ++ cf)

/-! ### Pydantic validation boundaries

The raw-input side of the models of src/app/models/copper.py and (for
OpportunityCreate) src/app/copper/models/opportunities.py: every field is
wrapped in `Option` to express presence or absence in the raw payload, and
validation enforces exactly the required fields and declared constraints of
the corresponding Pydantic model. -/

/-- The `Field(gt=0)` constraint on `CustomField.custom_field_definition_id`. -/
def validCustomFields (fs : List CustomField) : Bool :=
  fs.all (fun f => decide (0 < f.custom_field_definition_id))

/-- The `Field(ge=0, le=100)` constraint on `win_probability`. -/
def winProbOk : Option Int → Bool
  | none => true
  | some w => decide (0 ≤ w ∧ w ≤ 100)

/-- Raw input for the Person model of src/app/models/copper.py. -/
structure PersonInput where
  id : Option Nat := none
  name : Option String := none
  prefix_ : Option String := none
  first_name : Option String := none
  last_name : Option String := none
  suffix : Option String := none
  title : Option String := none
  company_name : Option String := none
  company_id : Option Nat := none
  emails : Option (List EmailPhone) := none
  phone_numbers : Option (List EmailPhone) := none
  socials : Option (List Social) := none
  websites : Option (List String) := none
  address : Option Address := none
  assignee_id : Option Nat := none
  contact_type_id : Option Nat := none
  details : Option String := none
  tags : Option (List String) := none
  custom_fields : Option (List CustomField) := none
  date_created : Option Nat := none
  date_modified : Option Nat := none
  interaction_count : Option Nat := none

/-- Embeds `Person.model_validate` for the model of src/app/models/copper.py
(lines 52-76): `name` is the only required field; `emails` (like every other
list) defaults to the empty list, so a person with no email at all
validates; custom-field definition ids must be positive. -/
def validatePerson (i : PersonInput) : Except String Person :=
  match i.name with
  | none => .error "ValidationError: name field required"
  | some nm =>
    if validCustomFields (i.custom_fields.getD []) then
      .ok {
        id := i.id, name := nm, prefix_ := i.prefix_, first_name := i.first_name,
        last_name := i.last_name, suffix := i.suffix, title := i.title,
        company_name := i.company_name, company_id := i.company_id,
        emails := i.emails.getD [], phone_numbers := i.phone_numbers.getD [],
        socials := i.socials.getD [], websites := i.websites.getD [],
        address := i.address, assignee_id := i.assignee_id,
        contact_type_id := i.contact_type_id, details := i.details,
        tags := i.tags.getD [], custom_fields := i.custom_fields.getD [],
        date_created := i.date_created, date_modified := i.date_modified,
        interaction_count := i.interaction_count }
    else .error "ValidationError: custom_field_definition_id must be greater than 0"

/-- Raw input for the Opportunity model of src/app/models/copper.py. -/
structure OpportunityInput where
  id : Option Nat := none
  name : Option String := none
  assignee_id : Option Nat := none
  company_id : Option Nat := none
  company_name : Option String := none
  primary_contact_id : Option Nat := none
  status : Option String := none
  priority : Option String := none
  pipeline_id : Option Nat := none
  pipeline_stage_id : Option Nat := none
  monetary_value : Option Int := none
  win_probability : Option Int := none
  close_date : Option Nat := none
  details : Option String := none
  tags : Option (List String) := none
  custom_fields : Option (List CustomField) := none
  date_created : Option Nat := none
  date_modified : Option Nat := none
  interaction_count : Option Int := none

/-- Embeds `Opportunity.model_validate` for the model of
src/app/models/copper.py (lines 101-121): `name` and `status` are required;
`pipeline_id` and `pipeline_stage_id` are optional; `monetary_value` has no
constraint at all (in particular no lower bound); `win_probability` must lie
in 0..100. -/
def validateOpportunity (i : OpportunityInput) : Except String Opportunity :=
  match i.name with
  | none => .error "ValidationError: name field required"
  | some nm =>
    match i.status with
    | none => .error "ValidationError: status field required"
    | some st =>
      if winProbOk i.win_probability then
        if validCustomFields (i.custom_fields.getD []) then
          .ok {
            id := i.id, name := nm, assignee_id := i.assignee_id,
            company_id := i.company_id, company_name := i.company_name,
            primary_contact_id := i.primary_contact_id, status := st,
            priority := i.priority, pipeline_id := i.pipeline_id,
            pipeline_stage_id := i.pipeline_stage_id,
            monetary_value := i.monetary_value,
            win_probability := i.win_probability, close_date := i.close_date,
            details := i.details, tags := i.tags.getD [],
            custom_fields := i.custom_fields.getD [],
            date_created := i.date_created, date_modified := i.date_modified,
            interaction_count := i.interaction_count }
        else .error "ValidationError: custom_field_definition_id must be greater than 0"
      else .error "ValidationError: win_probability must be between 0 and 100"

/-- Raw input for the OpportunityCreate model of
src/app/copper/models/opportunities.py (lines 57-116). -/
structure OpportunityCreateInput where
  name : Option String := none
  primary_contact_id : Option Nat := none
  pipeline_id : Option Nat := none
  pipeline_stage_id : Option Nat := none
  monetary_value : Option Int := none
  close_date : Option Nat := none
  customer_source_id : Option Nat := none
  loss_reason_id : Option Nat := none
  company_id : Option Nat := none
  assignee_id : Option Nat := none
  tags : Option (List String) := none
  custom_fields : Option (List CustomField) := none
  details : Option String := none
  priority : Option String := none
  status : Option String := none
  win_probability : Option Int := none

/-- The validated OpportunityCreate record: `name`, `primary_contact_id`,
`pipeline_id` and `pipeline_stage_id` are required. -/
structure OpportunityCreate where
  name : String
  primary_contact_id : Nat
  pipeline_id : Nat
  pipeline_stage_id : Nat
  monetary_value : Option Int := none
  close_date : Option Nat := none
  customer_source_id : Option Nat := none
  loss_reason_id : Option Nat := none
  company_id : Option Nat := none
  assignee_id : Option Nat := none
  tags : Option (List String) := none
  custom_fields : Option (List CustomField) := none
  details : Option String := none
  priority : Option String := none
  status : Option String := none
  win_probability : Option Int := none

/-- The `pattern` constraint on OpportunityCreate priority. -/
def priorityPatternOk : Option String → Bool
  | none => true
  | some s => decide (s = "None" ∨ s = "Low" ∨ s = "Medium" ∨ s = "High")

/-- The `pattern` constraint on OpportunityCreate status. -/
def statusPatternOk : Option String → Bool
  | none => true
  | some s => decide (s = "Open" ∨ s = "Won" ∨ s = "Lost" ∨ s = "Abandoned")

/-- Embeds `OpportunityCreate.model_validate` for the model of
src/app/copper/models/opportunities.py: this separate API-client model,
unlike the one the mapping transformer validates against, does require
`pipeline_id`, `pipeline_stage_id` and `primary_contact_id`; it still puts
no constraint on `monetary_value`. -/
def validateOpportunityCreate (i : OpportunityCreateInput) :
    Except String OpportunityCreate :=
  match i.name, i.primary_contact_id, i.pipeline_id, i.pipeline_stage_id with
  | some nm, some pc, some pid, some psid =>
    if priorityPatternOk i.priority && statusPatternOk i.status
        && winProbOk i.win_probability then
      .ok {
        name := nm, primary_contact_id := pc, pipeline_id := pid,
        pipeline_stage_id := psid, monetary_value := i.monetary_value,
        close_date := i.close_date, customer_source_id := i.customer_source_id,
        loss_reason_id := i.loss_reason_id, company_id := i.company_id,
        assignee_id := i.assignee_id, tags := i.tags,
        custom_fields := i.custom_fields, details := i.details,
        priority := i.priority, status := i.status,
        win_probability := i.win_probability }
    else .error "ValidationError: pattern or range constraint violated"
  | _, _, _, _ => .error "ValidationError: missing required field"

/-- Raw input for the ActivityType model (src/app/models/copper.py lines
45-49): its `id` field is declared `str`, and Pydantic v2 does not coerce
an integer into a string, so an integer id is a validation error. -/
structure ActivityTypeInput where
  id : Option PyVal := none
  category : Option String := none
  name : Option String := none

/-- Raw input for the Activity model (src/app/models/copper.py lines
124-135). -/
structure ActivityInput where
  id : Option String := none
  type : Option ActivityTypeInput := none
  details : Option String := none
  activity_date : Option Int := none
  user_id : Option String := none
  parent : Option (List (String × PyVal)) := none
  assignee_id : Option String := none
  custom_fields : Option (List CustomField) := none
  created_at : Option Int := none
  updated_at : Option Int := none

/-- A `Dict[str, str]` check: every value must already be a string
(Pydantic v2 does not coerce integers to strings). -/
def allStrings : List (String × PyVal) → Option (List (String × String))
  | [] => some []
  | (k, pstr s) :: rest => (allStrings rest).map (fun r => (k, s) :: r)
  | _ => none

/-- Embeds `Activity.model_validate` for the model of
src/app/models/copper.py (lines 124-135): `type` (with string id, category
and name), `activity_date`, `user_id` and `parent` (a str-to-str dict) are
all required. -/
def validateActivity (i : ActivityInput) : Except String Activity :=
  match i.type with
  | none => .error "ValidationError: type field required"
  | some ty =>
    match ty.id with
    | none => .error "ValidationError: type id field required"
    | some (pstr tid) =>
      match ty.category with
      | none => .error "ValidationError: type category field required"
      | some cat =>
        match ty.name with
        | none => .error "ValidationError: type name field required"
        | some tnm =>
          match i.activity_date with
          | none => .error "ValidationError: activity_date field required"
          | some ad =>
            match i.user_id with
            | none => .error "ValidationError: user_id field required"
            | some uid =>
              match i.parent with
              | none => .error "ValidationError: parent field required"
              | some par =>
                match allStrings par with
                | none => .error "ValidationError: parent values must be strings"
                | some pairs =>
                  .ok {
                    id := i.id, type := ⟨tid, cat, tnm⟩, details := i.details,
                    activity_date := ad, user_id := uid, parent := pairs,
                    assignee_id := i.assignee_id,
                    custom_fields := i.custom_fields.getD [],
                    created_at := i.created_at, updated_at := i.updated_at }
    | some _ => .error "ValidationError: type id must be a string"

/-! ### General lemmas -/

@[simp] theorem ebind_ok {α β : Type} (a : α) (f : α → Except String β) :
    (Except.ok a >>= f) = f a := rfl

@[simp] theorem ebind_error {α β : Type} (s : String) (f : α → Except String β) :
    ((Except.error s : Except String α) >>= f) = Except.error s := rfl

@[simp] theorem emap_ok {α β : Type} (a : α) (f : α → β) :
    (Except.ok a : Except String α).map f = Except.ok (f a) := rfl

@[simp] theorem emap_error {α β : Type} (s : String) (f : α → β) :
    (Except.error s : Except String α).map f = Except.error s := rfl

@[simp] theorem isOk_ok {α : Type} (a : α) :
    (Except.ok a : Except String α).isOk = true := rfl

@[simp] theorem isOk_error {α : Type} (s : String) :
    (Except.error s : Except String α).isOk = false := rfl

theorem alookup_append_inv {α : Type} {k : String} {l₁ l₂ : List (String × α)} {v : α}
    (h : alookup k (l₁ ++ l₂) = some v) :
    alookup k l₁ = some v ∨ (alookup k l₁ = none ∧ alookup k l₂ = some v) := by
  cases hl : alookup k l₁ with
  | some w =>
    left
    exact (alookup_append_left hl l₂).symm.trans h
  | none =>
    right
    exact ⟨rfl, (alookup_append_right hl l₂).symm.trans h⟩

theorem alookup_relEntry_inv {k key ty : String} {fk : Option Nat} {rd : RelData}
    (h : alookup k (relEntry key ty fk) = some (some rd)) :
    k = key ∧ ∃ m, fk = some m ∧ rd = { type := ty, id := natRepr m, name := none } := by
  rcases fk with _ | n
  · simp [relEntry, alookup] at h
  · rcases n with _ | n
    · simp [relEntry, alookup] at h
    · rw [alookup_relEntry] at h
      split at h
      · next hkey =>
        refine ⟨hkey.symm, n + 1, rfl, ?_⟩
        simp at h
        exact h.symm
      · simp at h

theorem filter_head_eq_find {α : Type} (p : α → Bool) (l : List α) :
    (l.filter p).head? = l.find? p := by
  induction l with
  | nil => rfl
  | cons a l ih =>
    by_cases h : p a <;> simp [List.filter_cons, List.find?_cons, h, ih]

theorem relBack_of_absent {e : Envelope} {rk ok' : String}
    (h : alookup rk e.relationships = none) : relBack e rk ok' = .ok [] := by
  simp [relBack, h]

theorem relBack_lookup_other {e : Envelope} {rk out k : String} {r : List (String × PyVal)}
    (h : relBack e rk out = .ok r) (hk : out ≠ k) : alookup k r = none := by
  unfold relBack at h
  split at h
  · cases h
    rfl
  · cases h
  · split at h
    · cases h
      simp [alookup, hk]
    · cases h

theorem relatedResourceBack_of_absent {e : Envelope}
    (h : alookup "related_resource" e.relationships = none) :
    relatedResourceBack e = .ok [] := by
  simp [relatedResourceBack, h]

theorem relatedResourceBack_lookup_other {e : Envelope} {k : String}
    {r : List (String × PyVal)} (h : relatedResourceBack e = .ok r)
    (hk : ("related_resource" : String) ≠ k) : alookup k r = none := by
  unfold relatedResourceBack at h
  split at h
  · cases h
    rfl
  · cases h
  · split at h
    · cases h
      simp [alookup, hk]
    · cases h

theorem metaCf_lookup_other {e : Envelope} {k : String} {r : List (String × PyVal)}
    (h : metaCfBack e = .ok r) (hk : ("custom_fields" : String) ≠ k) :
    alookup k r = none := by
  unfold metaCfBack at h
  split at h
  · cases h
    rfl
  · split at h
    · next v _ =>
      rcases hc : customFieldsBack v with s | w <;> rw [hc] at h
      · cases h
      · simp at h
        simp [← h, alookup, hk]
    · cases h
      rfl

theorem person_to_mcp_ok {p : Person} {e : Envelope} (h : person_to_mcp p = .ok e) :
    e.source_id = some (pyStr p.id) ∧
    e.relationships = relEntry "company" "company" p.company_id ++
      relEntry "assignee" "user" p.assignee_id ∧
    alookup "email" e.attributes = some (optStr ((if p.emails = [] then none
      else getPrimaryContactPerson p.emails "work").bind (fun x => x.email))) := by
  unfold person_to_mcp at h
  rcases hfmt : person_toMcpFormat p with s | env <;> rw [hfmt] at h
  · cases h
  · simp at h
    unfold person_toMcpFormat at hfmt
    rcases hfn : personFirstName p with s | fn <;> rw [hfn] at hfmt
    · cases hfmt
    · simp at hfmt
      rw [← h, ← hfmt]
      refine ⟨rfl, rfl, alookup_append_left ?_ _⟩
      rfl

theorem mapE_cfEntry (fs : List CustomField) :
    mapE cfEntryBack (fs.map (fun f =>
      pdict [("id", pstr (natRepr f.custom_field_definition_id)), ("value", f.value)])) =
    .ok (fs.map (fun f =>
      pdict [("custom_field_definition_id", pint (Int.ofNat f.custom_field_definition_id)),
             ("value", f.value)])) := by
  induction fs with
  | nil => rfl
  | cons f fs ih => simp [mapE, cfEntryBack, alookup, pyInt, parseNat_natRepr, ih]

theorem customFieldsBack_dump (fs : List CustomField) :
    customFieldsBack (cfDumpList fs) = .ok (plist (fs.map (fun f =>
      pdict [("custom_field_definition_id", pint (Int.ofNat f.custom_field_definition_id)),
             ("value", f.value)]))) := by
  simp [customFieldsBack, cfDumpList, mapE_cfEntry]

/-! ### Claim C3 — datetime normalizer -/

/-- Claim C3, corrected.  The two cited `_format_datetime` helpers disagree
at the timestamp `0`: the activity version guards with `if not timestamp`
and maps both `None` and `0` to `None`, while the company version guards
with `if dt is None` and formats `0` as the epoch string.  Every other
behaviour of the claim holds: `None` maps to `None`, and any nonzero
integer timestamp (and any datetime) is rendered as the UTC
`%Y-%m-%dT%H:%M:%SZ` string produced by `formatTimestamp`. -/
theorem c3_datetime_normalizer :
    formatDatetimeActivity none = none ∧
    formatDatetimeActivity (some (.int 0)) = none ∧
    (∀ t : Nat, t ≠ 0 → formatDatetimeActivity (some (.int t)) = some (formatTimestamp t)) ∧
    (∀ t : Nat, formatDatetimeActivity (some (.dt t)) = some (formatTimestamp t)) ∧
    formatDatetimeCompany none = none ∧
    (∀ t : Nat, formatDatetimeCompany (some (.int t)) = some (formatTimestamp t)) ∧
    (∀ t : Nat, formatDatetimeCompany (some (.dt t)) = some (formatTimestamp t)) ∧
    formatTimestamp 0 = "1970-01-01T00:00:00Z" := by
  refine ⟨rfl, rfl, ?_, fun t => rfl, rfl, fun t => rfl, fun t => rfl, by decide⟩
  intro t ht
  cases t with
  | zero => exact absurd rfl ht
  | succ n => rfl

/-- Claim C3 counterexample: at the CRM timestamp `0` the company helper
returns the epoch string — not `null` as the claim requires — while the
activity helper returns `None` — not the ISO string the claim requires
for a non-null input. -/
theorem c3_counterexample :
    formatDatetimeCompany (some (.int 0)) = some "1970-01-01T00:00:00Z" ∧
    formatDatetimeActivity (some (.int 0)) = none ∧
    some "1970-01-01T00:00:00Z" ≠ (none : Option String) := by
  refine ⟨by decide, rfl, by decide⟩

/-- Witness for the hypotheses of `c3_datetime_normalizer`, at the Unix
timestamp 1234567890 used by the spec's own end-to-end scenario. -/
theorem c3_witness :
    (1234567890 : Nat) ≠ 0 ∧
    formatDatetimeActivity (some (.int 1234567890)) = some (formatTimestamp 1234567890) ∧
    formatTimestamp 1234567890 = "2009-02-13T23:31:30Z" :=
  ⟨by decide, c3_datetime_normalizer.2.2.1 1234567890 (by decide), by decide⟩

/-! ### Claim C2 — primary-contact selector -/

/-- Claim C2, corrected.  The selection rule holds exactly as claimed except
for one word: the category comparison is case-sensitive (`category ==
"work"`), not case-insensitive.  For both the base-class selector of
transform.py and the person/company selector: the first entry whose
category is exactly `"work"` wins; with no such entry the first entry in
original order wins; the empty list gives `None`. -/
theorem c2_primary_contact_selector :
    getPrimaryContact [] = none ∧
    (∀ l w, l.find? (fun x => decide (x.category = some "work")) = some w →
      getPrimaryContact l = some w.value) ∧
    (∀ c cs, (c :: cs).find? (fun x => decide (x.category = some "work")) = none →
      getPrimaryContact (c :: cs) = some c.value) ∧
    getPrimaryContactPerson [] "work" = none ∧
    (∀ l w, l.find? (fun x => decide (x.category = "work")) = some w →
      getPrimaryContactPerson l "work" = some w) ∧
    (∀ c cs, (c :: cs).find? (fun x => decide (x.category = "work")) = none →
      getPrimaryContactPerson (c :: cs) "work" = some c) := by
  refine ⟨rfl, ?_, ?_, rfl, ?_, ?_⟩
  · intro l w h
    cases l with
    | nil => simp at h
    | cons c cs => simp [getPrimaryContact, h]
  · intro c cs h
    simp [getPrimaryContact, h]
  · intro l w h
    cases l with
    | nil => simp at h
    | cons c cs =>
      have hf : ((c :: cs).filter (fun x => decide (x.category = "work"))).head? = some w := by
        rw [filter_head_eq_find]
        exact h
      cases hfl : (c :: cs).filter (fun x => decide (x.category = "work")) with
      | nil => rw [hfl] at hf; simp at hf
      | cons w' rest =>
        rw [hfl] at hf
        simp at hf
        simp [getPrimaryContactPerson, hfl, hf]
  · intro c cs h
    have hf : ((c :: cs).filter (fun x => decide (x.category = "work"))).head? = none := by
      rw [filter_head_eq_find]
      exact h
    cases hfl : (c :: cs).filter (fun x => decide (x.category = "work")) with
    | nil => simp [getPrimaryContactPerson, hfl]
    | cons w' rest => rw [hfl] at hf; simp at hf

/-- Claim C2 counterexample: on the list whose only work-category entry is
spelled `"Work"`, a case-insensitive selector must return that entry's
value `"a"`, but the code falls back to the first entry and returns `"b"`. -/
theorem c2_counterexample :
    getPrimaryContact [⟨some "home", "b"⟩, ⟨some "Work", "a"⟩] = some "b" ∧
    specPrimaryContact [⟨some "home", "b"⟩, ⟨some "Work", "a"⟩] = some "a" ∧
    ("b" : String) ≠ "a" :=
  ⟨rfl, rfl, by decide⟩

/-- Witness for the hypotheses of `c2_primary_contact_selector`: a list
with a `"work"` entry in second position, selected over the first entry. -/
theorem c2_witness :
    ([⟨some "home", "h"⟩, ⟨some "work", "w"⟩] : List ContactDict).find?
      (fun x => decide (x.category = some "work")) = some ⟨some "work", "w"⟩ ∧
    getPrimaryContact [⟨some "home", "h"⟩, ⟨some "work", "w"⟩] = some "w" :=
  ⟨by decide, c2_primary_contact_selector.2.1
    [⟨some "home", "h"⟩, ⟨some "work", "w"⟩] ⟨some "work", "w"⟩ (by decide)⟩

/-! ### Claim C7 — null foreign key representation -/

/-- Claim C7, corrected.  For a Company with `assignee_id = None` the
forward transformer does not put an `"assignee"` key into `relationships`
at all — the guard is `if data.assignee_id:` — so the envelope does not
contain `{"data": null}` for it.  The `{"data": null}` rendering exists
only in the shared `_create_relationship` helper, which the company
transformer does not call on the absent-id path. -/
theorem c7_null_foreign_key :
    (∀ c : Company, c.assignee_id = none →
      alookup "assignee" (company_toMcpFormat c).relationships = none) ∧
    (∀ ty nm, createRelationship ty none nm = none) := by
  constructor
  · intro c h
    show alookup "assignee"
      (relEntry "assignee" "user" c.assignee_id ++
        relEntry "primary_contact" "person" c.primary_contact_id) = none
    rw [h]
    show alookup "assignee" ([] ++ relEntry "primary_contact" "person" c.primary_contact_id) = none
    rw [List.nil_append]
    exact alookup_relEntry_ne (by decide) _ _
  · intro ty nm
    rfl

/-- Claim C7 counterexample: for a concrete Company with no assignee the
`"assignee"` key is absent from `relationships` (lookup yields `none`),
which in particular is not the claimed present-key-with-null-data
(`some none`). -/
theorem c7_counterexample :
    alookup "assignee" (company_toMcpFormat { name := "Acme Corp" }).relationships = none ∧
    alookup "assignee" (company_toMcpFormat { name := "Acme Corp" }).relationships ≠ some none :=
  ⟨rfl, by decide⟩

/-- Witness for the hypotheses of `c7_null_foreign_key`. -/
theorem c7_witness :
    ({ name := "Acme Corp" } : Company).assignee_id = none ∧
    alookup "assignee" (company_toMcpFormat { name := "Acme Corp" }).relationships = none :=
  ⟨rfl, c7_null_foreign_key.1 { name := "Acme Corp" } rfl⟩

/-! ### Claim C10 — source_id for records without an id -/

/-- Claim C10, corrected.  `BaseTransformer.to_mcp` assigns
`source_id = str(validated_data.id)` unconditionally, so whenever the
Person instantiation of the wrapper completes for a record whose id is
`None`, the envelope carries the literal string `"None"` and never a null
`source_id`.  The claim's "the transformation does not fail", however, is
false for the Opportunity instantiation: its final
`MCPOpportunity.model_validate` step rejects the list-valued
`meta.custom_fields` on every input, so an Opportunity record accepted at
the input-validation boundary never yields an envelope at all. -/
theorem c10_source_id_of_none_id :
    (∀ (p : Person) (e : Envelope), p.id = none → person_to_mcp p = .ok e →
      e.source_id = some "None") ∧
    (∀ o : Opportunity, (opp_to_mcp o).isOk = false) := by
  constructor
  · intro p e h hok
    unfold person_to_mcp at hok
    cases hfmt : person_toMcpFormat p with
    | error s => rw [hfmt] at hok; cases hok
    | ok env =>
      rw [hfmt] at hok
      simp at hok
      rw [← hok]
      simp [pyStr, h]
  · intro o
    rfl

/-- Claim C10 counterexample: a concrete Opportunity raw payload with no
id is accepted by the input-validation step of `to_mcp`, yet the
transformation fails (the final envelope re-validation rejects the
list-valued `meta.custom_fields`), so it is not true that for every
accepted record with a `None` id the transformation does not fail and
produces an envelope. -/
theorem c10_counterexample :
    ∃ o : Opportunity,
      validateOpportunity { name := some "Draft Deal", status := some "Open" } = .ok o ∧
      o.id = none ∧
      (opp_to_mcp o).isOk = false :=
  ⟨{ name := "Draft Deal", status := "Open" }, rfl, rfl, rfl⟩

/-- Witness for the hypotheses of `c10_source_id_of_none_id`, at a person
with no CRM id yet. -/
theorem c10_witness :
    ∃ e, person_to_mcp { name := "Jane" } = .ok e ∧ e.source_id = some "None" := by
  cases hfmt : person_to_mcp { name := "Jane" } with
  | error s =>
    have hok : (person_to_mcp { name := "Jane" }).isOk = true := by decide
    rw [hfmt] at hok
    cases hok
  | ok e =>
    exact ⟨e, rfl, c10_source_id_of_none_id.1 { name := "Jane" } e rfl hfmt⟩

/-! ### Claim C6 — negative monetary value -/

/-- Claim C6, confirmed — though not by the mechanism the spec suggests.
Neither Opportunity model constrains `monetary_value` (unlike
`win_probability`, `annual_revenue` and `employee_count`), so the claimed
input passes input validation and the transformer body carries `-1000`
into the envelope dict unchecked; but the transformation still raises a
validation error before any envelope escapes, because the final
`MCPOpportunity.model_validate` step of `to_mcp` rejects the list-valued
`meta.custom_fields` — it does so for every opportunity, this input
included, so no MCP envelope is produced and no HTTP call can be issued
with that payload, exactly as the claim states. -/
theorem c6_negative_monetary_value :
    ∃ o : Opportunity,
      validateOpportunity
        { name := some "Negative Deal", status := some "Open",
          monetary_value := some (-1000) } = .ok o ∧
      alookup "monetary_value" (opp_toMcpFormat o).attributes = some (pint (-1000)) ∧
      (opp_to_mcp o).isOk = false :=
  ⟨{ name := "Negative Deal", status := "Open", monetary_value := some (-1000) },
    rfl, rfl, rfl⟩

/-! ### Claim C8 — Activity end-to-end scenario -/

/-- Claim C8, a code bug.  The claimed input fails Pydantic validation
outright (`user_id` is required and missing, the type record has an
integer id where a string is declared, and the type name is missing).
Even with a repaired record, `_to_mcp_format` reads `data.parent.type` on
a plain dict and raises `AttributeError` for every nonempty parent; and on
the only non-raising path (an empty parent dict, which drops the required
relationship) it emits `activity_date` as the raw integer, although the
MCPActivityAttributes model declares an ISO8601 string — which for
1234567890 would be exactly the `"2009-02-13T23:31:30Z"` of the claim. -/
theorem c8_activity_end_to_end :
    (validateActivity
      { type := some { id := some (pint 123), category := some "user" },
        details := some "Test note", activity_date := some 1234567890,
        parent := some [("type", pstr "person"), ("id", pint 456)] }).isOk = false ∧
    (activity_toMcpFormat
      { type := ⟨"123", "user", "Call"⟩, details := some "Test note",
        activity_date := 1234567890, user_id := "456",
        parent := [("type", "person"), ("id", "456")] }).isOk = false ∧
    (∃ e, activity_toMcpFormat
        { type := ⟨"123", "user", "Call"⟩, details := some "Test note",
          activity_date := 1234567890, user_id := "456", parent := [] } = .ok e ∧
      alookup "activity_date" e.attributes = some (pint 1234567890) ∧
      alookup "parent" e.relationships = none) ∧
    formatTimestamp 1234567890 = "2009-02-13T23:31:30Z" :=
  ⟨rfl, rfl,
    ⟨{ type := "activity",
       attributes := [("details", pstr "Test note"), ("activity_type", pstr "user"),
         ("activity_date", pint 1234567890)],
       relationships := [], meta := [("custom_fields", plist [])] },
      rfl, rfl, rfl⟩,
    by decide⟩

/-! ### Claim C5 — required-field enforcement -/

/-- Claim C5, corrected.  For the models the forward transformers validate
against (src/app/models/copper.py): a Person without `name` is indeed
rejected, but `emails` defaults to the empty list, so a Person with no
email at all validates; and `pipeline_id` / `pipeline_stage_id` are
`Optional`, so an Opportunity without them validates (only `name` and
`status` are required).  The pipeline ids are required only by the separate
API-client model OpportunityCreate of src/app/copper/models/opportunities.py. -/
theorem c5_required_field_enforcement :
    (∀ i : PersonInput, i.name = none → (validatePerson i).isOk = false) ∧
    (∀ (i : PersonInput) (nm : String), i.name = some nm → i.custom_fields = none →
      (validatePerson i).isOk = true) ∧
    (∀ i : OpportunityInput, i.name = none → (validateOpportunity i).isOk = false) ∧
    (∀ i : OpportunityInput, i.status = none → (validateOpportunity i).isOk = false) ∧
    (∀ (i : OpportunityInput) (nm st : String), i.name = some nm → i.status = some st →
      i.win_probability = none → i.custom_fields = none →
      (validateOpportunity i).isOk = true) ∧
    (∀ i : OpportunityCreateInput, i.pipeline_id = none →
      (validateOpportunityCreate i).isOk = false) ∧
    (∀ i : OpportunityCreateInput, i.pipeline_stage_id = none →
      (validateOpportunityCreate i).isOk = false) := by
  refine ⟨?_, ?_, ?_, ?_, ?_, ?_, ?_⟩
  · intro i h
    simp [validatePerson, h]
  · intro i nm h hcf
    simp [validatePerson, h, hcf, validCustomFields]
  · intro i h
    simp [validateOpportunity, h]
  · intro i h
    unfold validateOpportunity
    cases i.name <;> simp [h]
  · intro i nm st h hst hw hcf
    simp [validateOpportunity, h, hst, hw, hcf, winProbOk, validCustomFields]
  · intro i h
    unfold validateOpportunityCreate
    cases i.name <;> cases i.primary_contact_id <;> cases i.pipeline_stage_id <;> simp [h]
  · intro i h
    unfold validateOpportunityCreate
    cases i.name <;> cases i.primary_contact_id <;> cases i.pipeline_id <;> simp [h]

/-- Claim C5 counterexample: a Person with a name but no email whatsoever
validates successfully, and an Opportunity without `pipeline_id` or
`pipeline_stage_id` validates successfully — neither raises the validation
failure the claim requires. -/
theorem c5_counterexample :
    (validatePerson { name := some "Jane Doe" }).isOk = true ∧
    ({ name := some "Jane Doe" } : PersonInput).emails = none ∧
    (validateOpportunity { name := some "Deal", status := some "Open" }).isOk = true ∧
    ({ name := some "Deal", status := some "Open" } : OpportunityInput).pipeline_id = none :=
  ⟨rfl, rfl, rfl, rfl⟩

/-- Witness for the hypotheses of `c5_required_field_enforcement`: the empty
raw payload is rejected for Person, and a payload missing `pipeline_id` is
rejected by the OpportunityCreate API model. -/
theorem c5_witness :
    (validatePerson {}).isOk = false ∧
    (validateOpportunityCreate { name := some "Deal" }).isOk = false :=
  ⟨c5_required_field_enforcement.1 {} rfl,
   c5_required_field_enforcement.2.2.2.2.2.1 { name := some "Deal" } rfl⟩

/-! ### Claim C9 — absent relationship leaves the CRM field unset -/

/-- Claim C9, confirmed.  In every reverse transformer the `*_id`
assignment is guarded by `if key in data.relationships:`, so an envelope
whose `relationships` lacks the key produces a payload with no
corresponding `*_id` key at all (not a key bound to null) — shown for the
Task transformer (`assignee` / `related_resource`) and the Person
transformer (`assignee` / `company`). -/
theorem c9_absent_relationship_unset :
    (∀ e pl, alookup "assignee" e.relationships = none →
      task_toCopperFormat e = .ok pl → alookup "assignee_id" pl = none) ∧
    (∀ e pl, alookup "related_resource" e.relationships = none →
      task_toCopperFormat e = .ok pl → alookup "related_resource" pl = none) ∧
    (∀ e pl, alookup "assignee" e.relationships = none →
      person_toCopperFormat e = .ok pl → alookup "assignee_id" pl = none) ∧
    (∀ e pl, alookup "company" e.relationships = none →
      person_toCopperFormat e = .ok pl → alookup "company_id" pl = none) := by
  refine ⟨?_, ?_, ?_, ?_⟩
  · intro e pl ha hok
    unfold task_toCopperFormat at hok
    rcases hrr : relatedResourceBack e with s | rr
    · simp [hrr] at hok
    rcases hcf : metaCfBack e with s | cf
    · simp [hrr, relBack_of_absent ha, hcf] at hok
    simp [hrr, relBack_of_absent ha, hcf] at hok
    rw [← hok]
    simp [alookup]
    rw [alookup_append_right (relatedResourceBack_lookup_other hrr (by decide))]
    exact metaCf_lookup_other hcf (by decide)
  · intro e pl ha hok
    unfold task_toCopperFormat at hok
    rcases hra : relBack e "assignee" "assignee_id" with s | ra
    · simp [relatedResourceBack_of_absent ha, hra] at hok
    rcases hcf : metaCfBack e with s | cf
    · simp [relatedResourceBack_of_absent ha, hra, hcf] at hok
    simp [relatedResourceBack_of_absent ha, hra, hcf] at hok
    rw [← hok]
    simp [alookup]
    rw [alookup_append_right (relBack_lookup_other hra (by decide))]
    exact metaCf_lookup_other hcf (by decide)
  · intro e pl ha hok
    unfold person_toCopperFormat at hok
    rcases hph : pickKeys ["number", "category"]
        ((alookup "phone_numbers" e.attributes).getD (plist [])) with s | phones
    · simp [hph] at hok
    rcases hso : pickKeys ["url", "category"]
        ((alookup "socials" e.attributes).getD (plist [])) with s | socials
    · simp [hph, hso] at hok
    rcases hrc : relBack e "company" "company_id" with s | rc
    · simp [hph, hso, hrc] at hok
    rcases hcf : metaCfBack e with s | cf
    · simp [hph, hso, hrc, relBack_of_absent ha, hcf] at hok
    simp [hph, hso, hrc, relBack_of_absent ha, hcf] at hok
    rw [← hok]
    simp [alookup]
    rw [alookup_append_right (relBack_lookup_other hrc (by decide))]
    exact metaCf_lookup_other hcf (by decide)
  · intro e pl hc hok
    unfold person_toCopperFormat at hok
    rcases hph : pickKeys ["number", "category"]
        ((alookup "phone_numbers" e.attributes).getD (plist [])) with s | phones
    · simp [hph] at hok
    rcases hso : pickKeys ["url", "category"]
        ((alookup "socials" e.attributes).getD (plist [])) with s | socials
    · simp [hph, hso] at hok
    rcases hra : relBack e "assignee" "assignee_id" with s | ra
    · simp [hph, hso, relBack_of_absent hc, hra] at hok
    rcases hcf : metaCfBack e with s | cf
    · simp [hph, hso, relBack_of_absent hc, hra, hcf] at hok
    simp [hph, hso, relBack_of_absent hc, hra, hcf] at hok
    rw [← hok]
    simp [alookup]
    rw [alookup_append_right (relBack_lookup_other hra (by decide))]
    exact metaCf_lookup_other hcf (by decide)

/-- Witness for the hypotheses of `c9_absent_relationship_unset`: a
concrete MCP Task envelope with an empty `relationships` mapping
reverse-transforms to a payload with no `assignee_id` key. -/
theorem c9_witness :
    ∃ pl, task_toCopperFormat
        { type := "task", attributes := [("name", pstr "Call Bob")],
          relationships := [], meta := [] } = .ok pl ∧
      alookup "assignee_id" pl = none := by
  cases hok : task_toCopperFormat
      { type := "task", attributes := [("name", pstr "Call Bob")],
        relationships := [], meta := [] } with
  | error s =>
    have h : (task_toCopperFormat
        { type := "task", attributes := [("name", pstr "Call Bob")],
          relationships := [], meta := [] }).isOk = true := by decide
    rw [hok] at h
    cases h
  | ok pl =>
    exact ⟨pl, rfl, c9_absent_relationship_unset.1
      { type := "task", attributes := [("name", pstr "Call Bob")],
        relationships := [], meta := [] } pl rfl hok⟩

/-! ### Claim C4 — id stringification invariant -/

/-- Claim C4, confirmed.  Whenever a forward transformation produces an
envelope: `source_id` is `str(id)` — the decimal string of the record id
when one is present — and every populated `relationships[name].data.id` is
the decimal string of the corresponding foreign key; shown for the Person
wrapper and the Person, Company, Opportunity and Task `_to_mcp_format`
bodies, and, concretely, for the spec's Jane Doe end-to-end example
(`source_id == "123"`, `attributes.email == "jane@work.com"`). -/
theorem c4_id_stringification :
    (∀ (p : Person) (i : Nat) (e : Envelope), p.id = some i → person_to_mcp p = .ok e →
      e.source_id = some (natRepr i)) ∧
    (∀ (p : Person) (e : Envelope) (k : String) (rd : RelData), person_to_mcp p = .ok e →
      alookup k e.relationships = some (some rd) →
      ∃ m : Nat, rd.id = natRepr m ∧
        ((k = "company" ∧ p.company_id = some m) ∨
         (k = "assignee" ∧ p.assignee_id = some m))) ∧
    (∀ (c : Company) (k : String) (rd : RelData),
      alookup k (company_toMcpFormat c).relationships = some (some rd) →
      ∃ m : Nat, rd.id = natRepr m ∧
        ((k = "assignee" ∧ c.assignee_id = some m) ∨
         (k = "primary_contact" ∧ c.primary_contact_id = some m))) ∧
    (∀ (o : Opportunity) (k : String) (rd : RelData),
      alookup k (opp_toMcpFormat o).relationships = some (some rd) →
      ∃ m : Nat, rd.id = natRepr m ∧
        ((k = "company" ∧ o.company_id = some m) ∨
         (k = "primary_contact" ∧ o.primary_contact_id = some m) ∨
         (k = "assignee" ∧ o.assignee_id = some m))) ∧
    (∀ (t : Task) (e : Envelope) (k : String) (rd : RelData), task_toMcpFormat t = .ok e →
      alookup k e.relationships = some (some rd) →
      ∃ m : Nat, rd.id = natRepr m ∧ k = "assignee" ∧ t.assignee_id = some m) ∧
    (∃ e, person_to_mcp
        { id := some 123, name := "Jane Doe",
          emails := [{ category := "personal", email := some "jane@personal.com" },
                     { category := "work", email := some "jane@work.com" }] } = .ok e ∧
      e.source_id = some "123" ∧
      alookup "email" e.attributes = some (pstr "jane@work.com")) := by
  refine ⟨?_, ?_, ?_, ?_, ?_, ?_⟩
  · intro p i e h hok
    rw [(person_to_mcp_ok hok).1, h]
    rfl
  · intro p e k rd hok hrel
    rw [(person_to_mcp_ok hok).2.1] at hrel
    rcases alookup_append_inv hrel with h1 | ⟨_, h2⟩
    · obtain ⟨hk, m, hm, hrd⟩ := alookup_relEntry_inv h1
      exact ⟨m, by rw [hrd], Or.inl ⟨hk, hm⟩⟩
    · obtain ⟨hk, m, hm, hrd⟩ := alookup_relEntry_inv h2
      exact ⟨m, by rw [hrd], Or.inr ⟨hk, hm⟩⟩
  · intro c k rd hrel
    have hrel' : alookup k (relEntry "assignee" "user" c.assignee_id ++
        relEntry "primary_contact" "person" c.primary_contact_id) = some (some rd) := hrel
    rcases alookup_append_inv hrel' with h1 | ⟨_, h2⟩
    · obtain ⟨hk, m, hm, hrd⟩ := alookup_relEntry_inv h1
      exact ⟨m, by rw [hrd], Or.inl ⟨hk, hm⟩⟩
    · obtain ⟨hk, m, hm, hrd⟩ := alookup_relEntry_inv h2
      exact ⟨m, by rw [hrd], Or.inr ⟨hk, hm⟩⟩
  · intro o k rd hrel
    have hrel' : alookup k ((relEntry "company" "company" o.company_id ++
        relEntry "primary_contact" "person" o.primary_contact_id) ++
          relEntry "assignee" "user" o.assignee_id) = some (some rd) := hrel
    rcases alookup_append_inv hrel' with h12 | ⟨_, h3⟩
    · rcases alookup_append_inv h12 with h1 | ⟨_, h2⟩
      · obtain ⟨hk, m, hm, hrd⟩ := alookup_relEntry_inv h1
        exact ⟨m, by rw [hrd], Or.inl ⟨hk, hm⟩⟩
      · obtain ⟨hk, m, hm, hrd⟩ := alookup_relEntry_inv h2
        exact ⟨m, by rw [hrd], Or.inr (Or.inl ⟨hk, hm⟩)⟩
    · obtain ⟨hk, m, hm, hrd⟩ := alookup_relEntry_inv h3
      exact ⟨m, by rw [hrd], Or.inr (Or.inr ⟨hk, hm⟩)⟩
  · intro t e k rd hok hrel
    unfold task_toMcpFormat at hok
    split at hok
    · cases hok
    · split at hok
      · cases hok
      · cases hok
        obtain ⟨hk, m, hm, hrd⟩ := alookup_relEntry_inv hrel
        exact ⟨m, by rw [hrd], hk, hm⟩
  · cases hok : person_to_mcp
        { id := some 123, name := "Jane Doe",
          emails := [{ category := "personal", email := some "jane@personal.com" },
                     { category := "work", email := some "jane@work.com" }] } with
    | error s =>
      have h : (person_to_mcp
          { id := some 123, name := "Jane Doe",
            emails := [{ category := "personal", email := some "jane@personal.com" },
                       { category := "work", email := some "jane@work.com" }] }).isOk
          = true := by decide
      rw [hok] at h
      cases h
    | ok e =>
      refine ⟨e, rfl, ?_, ?_⟩
      · exact ((person_to_mcp_ok hok).1).trans (by decide)
      · exact ((person_to_mcp_ok hok).2.2).trans (by rfl)

/-- Witness for the hypotheses of `c4_id_stringification`, at the spec's
Jane Doe person record with CRM id 123. -/
theorem c4_witness :
    ∃ e, person_to_mcp
        { id := some 123, name := "Jane Doe",
          emails := [{ category := "personal", email := some "jane@personal.com" },
                     { category := "work", email := some "jane@work.com" }] } = .ok e ∧
      e.source_id = some (natRepr 123) := by
  cases hok : person_to_mcp
      { id := some 123, name := "Jane Doe",
        emails := [{ category := "personal", email := some "jane@personal.com" },
                   { category := "work", email := some "jane@work.com" }] } with
  | error s =>
    have h : (person_to_mcp
        { id := some 123, name := "Jane Doe",
          emails := [{ category := "personal", email := some "jane@personal.com" },
                     { category := "work", email := some "jane@work.com" }] }).isOk
        = true := by decide
    rw [hok] at h
    cases h
  | ok e =>
    exact ⟨e, rfl, c4_id_stringification.1
      { id := some 123, name := "Jane Doe",
        emails := [{ category := "personal", email := some "jane@personal.com" },
                   { category := "work", email := some "jane@work.com" }] } 123 e rfl hok⟩

/-! ### Claim C1 — round-trip identity -/

/-- Claim C1, corrected.  For the Opportunity transformer with all
relationship ids present (nonzero, as Python truthiness requires) the
round trip reproduces every `*_id` field — `company_id`,
`primary_contact_id`, `assignee_id`, `pipeline_id`, `pipeline_stage_id` —
and every scalar attribute the forward transformer carries (`name`,
`status`, `details`, `monetary_value`, `win_probability`, `close_date`),
with the custom fields re-keyed to the CRM list form.  It does not
reproduce every scalar attribute of the record: `priority` (see the
counterexample), `company_name` and `interaction_count` are dropped. -/
theorem c1_roundtrip (o : Opportunity) (c pc a p q : Nat)
    (hc : o.company_id = some (c + 1)) (hpc : o.primary_contact_id = some (pc + 1))
    (ha : o.assignee_id = some (a + 1)) (hp : o.pipeline_id = some p)
    (hq : o.pipeline_stage_id = some q) :
    opp_toCopperFormat (opp_toMcpFormat o) = .ok [
      ("name", pstr o.name),
      ("status", pstr o.status),
      ("pipeline_id", pint (Int.ofNat p)),
      ("pipeline_stage_id", pint (Int.ofNat q)),
      ("details", optStr o.details),
      ("monetary_value", optInt o.monetary_value),
      ("win_probability", optInt o.win_probability),
      ("close_date", optDt o.close_date),
      ("company_id", pint (Int.ofNat (c + 1))),
      ("primary_contact_id", pint (Int.ofNat (pc + 1))),
      ("assignee_id", pint (Int.ofNat (a + 1))),
      ("custom_fields", plist (o.custom_fields.map (fun f =>
        pdict [("custom_field_definition_id", pint (Int.ofNat f.custom_field_definition_id)),
               ("value", f.value)])))] := by
  simp [opp_toCopperFormat, opp_toMcpFormat, attrGet, alookup, relBack, relEntry,
    pyStr, pyInt, parseNat_natRepr, metaCfBack, customFieldsBack_dump,
    hc, hpc, ha, hp, hq]

/-- Claim C1 counterexample: a concrete Opportunity with every relationship
id present and `priority = "High"` round-trips to a payload that contains
no `priority` key at all, so the round trip does not reproduce every scalar
attribute of the record. -/
theorem c1_counterexample :
    ∃ pl, opp_toCopperFormat (opp_toMcpFormat
        { name := "Deal", status := "Open", priority := some "High",
          company_id := some 1, primary_contact_id := some 2, assignee_id := some 3,
          pipeline_id := some 4, pipeline_stage_id := some 5 }) = .ok pl ∧
      alookup "priority" pl = none ∧
      ({ name := "Deal", status := "Open", priority := some "High",
         company_id := some 1, primary_contact_id := some 2, assignee_id := some 3,
         pipeline_id := some 4, pipeline_stage_id := some 5 } : Opportunity).priority
        = some "High" :=
  ⟨[("name", pstr "Deal"), ("status", pstr "Open"),
    ("pipeline_id", pint 4), ("pipeline_stage_id", pint 5),
    ("details", pnone), ("monetary_value", pnone),
    ("win_probability", pnone), ("close_date", pnone),
    ("company_id", pint 1), ("primary_contact_id", pint 2), ("assignee_id", pint 3),
    ("custom_fields", plist [])],
   rfl, rfl, rfl⟩

/-- Witness for the hypotheses of `c1_roundtrip`, at a concrete Opportunity
with all relationship ids present. -/
theorem c1_witness :
    opp_toCopperFormat (opp_toMcpFormat
        { name := "Deal", status := "Open",
          company_id := some (0 + 1), primary_contact_id := some (1 + 1),
          assignee_id := some (2 + 1), pipeline_id := some 4,
          pipeline_stage_id := some 5 }) = .ok [
      ("name", pstr "Deal"),
      ("status", pstr "Open"),
      ("pipeline_id", pint (Int.ofNat 4)),
      ("pipeline_stage_id", pint (Int.ofNat 5)),
      ("details", optStr none),
      ("monetary_value", optInt none),
      ("win_probability", optInt none),
      ("close_date", optDt none),
      ("company_id", pint (Int.ofNat (0 + 1))),
      ("primary_contact_id", pint (Int.ofNat (1 + 1))),
      ("assignee_id", pint (Int.ofNat (2 + 1))),
      ("custom_fields", plist [])] :=
  c1_roundtrip
    { name := "Deal", status := "Open",
      company_id := some (0 + 1), primary_contact_id := some (1 + 1),
      assignee_id := some (2 + 1), pipeline_id := some 4, pipeline_stage_id := some 5 }
    0 1 2 4 5 rfl rfl rfl rfl rfl

end CopperMCP
